import Mathlib

/-!
Shallow embedding of `crates/biome_js_analyze/src/lint/nursery/no_floating_promises.rs`.

The rule inspects a single `JsExpressionStatement` together with a semantic
model. Fallible tree accessors (`Result`/`Option` in the Rust source, since
red-green syntax trees may miss children) are embedded as `Option` fields.
Only the parts of the syntax tree the rule reads are modelled: callees,
argument-list lengths, member names, async tokens, return-type / variable
type annotations, initializers, and the kinds of ancestor nodes.
-/

namespace NoFloatingPromises

/-- `AnyJsName`: a member name in a static member expression.
`JsName` carries its token text; `JsPrivateName` is the `#x` form. -/
inductive AnyJsName where
  | jsName (text : String)
  | jsPrivateName (text : String)

/-- `AnyTsName`: the name of a TS type reference — a plain reference
identifier or a qualified name (`A.B`). -/
inductive AnyTsName where
  | jsReferenceIdentifier (name : String)
  | tsQualifiedName

mutual
/-- `AnyTsType`, restricted to the variants the rule distinguishes:
a type reference (whose `name()` accessor may fail), a function type
(whose `return_type()` accessor may fail), and everything else. -/
inductive AnyTsType where
  | tsReferenceType (name : Option AnyTsName)
  | tsFunctionType (returnType : Option AnyTsReturnType)
  | tsOtherType
/-- `AnyTsReturnType`: a plain type, or a predicate/asserts return form. -/
inductive AnyTsReturnType where
  | anyTsType (ty : AnyTsType)
  | tsOtherReturnType
end

/-- `TsReturnTypeAnnotation`: its `ty()` accessor is fallible. -/
structure TsReturnTypeAnno where
  ty : Option AnyTsReturnType

/-- `AnyTsVariableAnnotation`: a plain type annotation (fallible `ty()`)
or a definite-assignment annotation (`!`). -/
inductive AnyTsVariableAnno where
  | tsTypeAnno (ty : Option AnyTsType)
  | tsDefiniteVariableAnno

/-- `AnyJsExpression`, restricted to the shapes the rule distinguishes.
`jsCallExpression` carries its fallible `callee()` and the fallible
argument list reduced to its length (`arguments()?.args().len()` — the
rule never reads argument contents). `jsStaticMemberExpression` carries
its fallible `object()` and `member()`. Arrow/function expressions carry
the data `is_variable_initializer_a_promise` reads. `jsAwaitExpression`
and `jsUnaryVoidExpression` model `await e` / `void e` statements. -/
inductive AnyJsExpression where
  | jsIdentifierExpression (name : Option String)
  | jsCallExpression (callee : Option AnyJsExpression) (argsLen : Option Nat)
  | jsStaticMemberExpression (object : Option AnyJsExpression) (member : Option AnyJsName)
  | jsArrowFunctionExpression (asyncToken : Bool) (returnTypeAnno : Option TsReturnTypeAnno)
  | jsFunctionExpression (asyncToken : Bool) (returnTypeAnno : Option TsReturnTypeAnno)
  | jsAwaitExpression (argument : AnyJsExpression)
  | jsUnaryVoidExpression (argument : AnyJsExpression)
  | jsOtherExpression

/-- `JsFunctionDeclaration`: the two pieces `is_function_a_promise` reads. -/
structure JsFunctionDeclaration where
  asyncToken : Bool
  returnTypeAnno : Option TsReturnTypeAnno

/-- `JsInitializerClause`: its `expression()` accessor is fallible. -/
structure JsInitializerClause where
  expression : Option AnyJsExpression

/-- `JsVariableDeclarator`: optional initializer clause and optional
variable type annotation. -/
structure JsVariableDeclarator where
  initializer : Option JsInitializerClause
  variableAnno : Option AnyTsVariableAnno

/-- `AnyJsBindingDeclaration`: the declaration a binding resolves to.
Only function declarations and variable declarators matter to the rule. -/
inductive AnyJsBindingDeclaration where
  | jsFunctionDeclaration (decl : JsFunctionDeclaration)
  | jsVariableDeclarator (decl : JsVariableDeclarator)
  | otherDeclaration

/-- A resolved binding; `binding.tree().declaration()` is fallible. -/
structure Binding where
  declaration : Option AnyJsBindingDeclaration

/-- The semantic model, reduced to the only operation the rule uses:
`model.binding(&reference)`, a pure lookup from reference text. -/
structure SemanticModel where
  binding : String → Option Binding

/-- Kinds of ancestor nodes, as inspected by `is_in_async_function`:
the four function-like kinds carry their `async_token()` presence,
every other kind is opaque. -/
inductive JsAncestor where
  | jsArrowFunctionExpression (asyncToken : Bool)
  | jsFunctionDeclaration (asyncToken : Bool)
  | jsMethodClassMember (asyncToken : Bool)
  | jsMethodObjectMember (asyncToken : Bool)
  | otherNode

/-- `JsExpressionStatement`: fallible `expression()` plus the chain of
proper ancestors, innermost first. (In the source, `syntax().ancestors()`
also yields the statement node itself first; its kind,
`JS_EXPRESSION_STATEMENT`, matches none of the four function-like arms,
so omitting it is observationally identical.) -/
structure JsExpressionStatement where
  expression : Option AnyJsExpression
  ancestors : List JsAncestor

/-- The statement level of the tree: the rule's query type is
`Semantic<JsExpressionStatement>`, so only expression statements are ever
evaluated; `return e;` is a `JsReturnStatement` and never matches. -/
inductive AnyJsStatement where
  | jsExpressionStatement (stmt : JsExpressionStatement)
  | jsReturnStatement (argument : Option AnyJsExpression)
  | otherStatement

/-- `is_return_type_a_promise`: unwraps the return-type annotation to a
plain identifier type-reference name and compares it to `"Promise"`. -/
def is_return_type_a_promise (return_type : Option TsReturnTypeAnno) : Bool :=
  ((((return_type.bind TsReturnTypeAnno.ty).bind
      (fun any_ts_return_type =>
        match any_ts_return_type with
        | AnyTsReturnType.anyTsType any_ts_type => some any_ts_type
        | _ => none)).bind
      (fun any_ts_type =>
        match any_ts_type with
        | AnyTsType.tsReferenceType name => name
        | _ => none)).bind
      (fun name =>
        match name with
        | AnyTsName.jsReferenceIdentifier identifier => some identifier
        | _ => none)).map
      (fun reference => reference == "Promise")
    |>.getD false

/-- `is_function_a_promise`: async token present, or `Promise`-named
return-type annotation. -/
def is_function_a_promise (func_decl : JsFunctionDeclaration) : Bool :=
  func_decl.asyncToken || is_return_type_a_promise func_decl.returnTypeAnno

/-- `is_variable_initializer_a_promise`: the declarator's initializer
expression must be an arrow-function or function expression that is
async or has a `Promise`-named return-type annotation. -/
def is_variable_initializer_a_promise (js_variable_declarator : JsVariableDeclarator) : Bool :=
  match js_variable_declarator.initializer with
  | none => false
  | some initializer_clause =>
    match initializer_clause.expression with
    | none => false
    | some expr =>
      match expr with
      | AnyJsExpression.jsArrowFunctionExpression asyncToken rta =>
          asyncToken || is_return_type_a_promise rta
      | AnyJsExpression.jsFunctionExpression asyncToken rta =>
          asyncToken || is_return_type_a_promise rta
      | _ => false

/-- `is_variable_annotation_a_promise`: the declarator's own type
annotation must be a plain type annotation holding a function type whose
return type is a type reference named `Promise` by a plain identifier. -/
def is_variable_anno_a_promise (js_variable_declarator : JsVariableDeclarator) : Bool :=
  ((js_variable_declarator.variableAnno.bind
      (fun anno =>
        match anno with
        | AnyTsVariableAnno.tsTypeAnno ty => some ty
        | _ => none)).bind
    (fun ty? => ty?)).bind
      (fun any_ts_type =>
        match any_ts_type with
        | AnyTsType.tsFunctionType return_type? =>
          return_type?.bind
            (fun return_type =>
              match return_type with
              | AnyTsReturnType.anyTsType (AnyTsType.tsReferenceType name?) =>
                name?.map
                  (fun name =>
                    match name with
                    | AnyTsName.jsReferenceIdentifier identifier =>
                        identifier == "Promise"
                    | _ => false)
              | _ => none)
        | _ => none)
    |>.getD false

mutual
/-- `is_callee_a_promise`: dispatch on the callee's shape. An identifier
is resolved through the semantic model to its declaration; a static
member expression delegates to `is_member_expression_callee_a_promise`;
everything else is `false`. -/
def is_callee_a_promise (model : SemanticModel) : AnyJsExpression → Bool
  | AnyJsExpression.jsIdentifierExpression name? =>
    match name? with
    | none => false
    | some reference =>
      match model.binding reference with
      | none => false
      | some binding =>
        match binding.declaration with
        | none => false
        | some (AnyJsBindingDeclaration.jsFunctionDeclaration func_decl) =>
            is_function_a_promise func_decl
        | some (AnyJsBindingDeclaration.jsVariableDeclarator js_var_decl) =>
            is_variable_initializer_a_promise js_var_decl
              || is_variable_anno_a_promise js_var_decl
        | some _ => false
  | AnyJsExpression.jsStaticMemberExpression object member =>
      is_member_expression_callee_a_promise model object member
  | _ => false

/-- `is_member_expression_callee_a_promise`: the member expression's
object must be a call expression; recurse into that call's callee.
(The member name itself is never inspected here.) -/
def is_member_expression_callee_a_promise (model : SemanticModel)
    (object : Option AnyJsExpression) (member : Option AnyJsName) : Bool :=
  match object with
  | none => false
  | some expr =>
    match expr with
    | AnyJsExpression.jsCallExpression callee? _ =>
      match callee? with
      | none => false
      | some callee => is_callee_a_promise model callee
    | _ => false
end

/-- Recursive worker of `is_handled_promise`, on a call expression whose
`callee()` succeeded. The Rust body is a sequence of early-return `if`
blocks over the member name; the `finally` block only returns early when
the member's object is itself a call expression, otherwise control falls
through to the `catch`/`then` checks (which then fail, since the name is
still `"finally"`). The recursive `is_handled_promise(inner)` call in
the source itself begins with `let Ok(expr) = inner.callee() else return
false`, which is the `none` arm of the inner callee match here. -/
def is_handled_promise_callee (expr : AnyJsExpression) (argsLen : Option Nat) : Bool :=
  match expr with
  | AnyJsExpression.jsStaticMemberExpression object member =>
    match member with
    | some (AnyJsName.jsName name) =>
      let fallthrough :=
        (name == "catch"
            && (match argsLen with
                | some len => decide (len > 0)
                | none => false))
          || (name == "then"
            && (match argsLen with
                | some len => decide (len ≥ 2)
                | none => false))
      if name == "finally" then
        match object with
        | some (AnyJsExpression.jsCallExpression (some inner_callee) inner_args) =>
            is_handled_promise_callee inner_callee inner_args
        | some (AnyJsExpression.jsCallExpression none _) => false
        | _ => fallthrough
      else fallthrough
    | _ => false
  | _ => false
termination_by structural expr

/-- `is_handled_promise`, on a call expression given as its fallible
callee and fallible argument-list length: `let Ok(expr) =
js_call_expression.callee() else return false`, then dispatch on the
callee's shape in `is_handled_promise_callee`. -/
def is_handled_promise (callee : Option AnyJsExpression) (argsLen : Option Nat) : Bool :=
  match callee with
  | none => false
  | some expr => is_handled_promise_callee expr argsLen

/-- `NoFloatingPromises::run`: signal iff the statement's expression is
directly a call expression whose callee is inferred to be a promise and
which is not an already-handled chain. -/
def run (model : SemanticModel) (node : JsExpressionStatement) : Option Unit :=
  match node.expression with
  | none => none
  | some expression =>
    match expression with
    | AnyJsExpression.jsCallExpression callee? argsLen =>
      match callee? with
      | none => none
      | some any_js_expression =>
        if !is_callee_a_promise model any_js_expression then none
        else if is_handled_promise callee? argsLen then none
        else some ()
    | _ => none

/-- The rule's query applied at the statement level: only expression
statements are handed to `run`. -/
def evaluateStatement (model : SemanticModel) : AnyJsStatement → Option Unit
  | AnyJsStatement.jsExpressionStatement stmt => run model stmt
  | _ => none

/-- `is_in_async_function`: `find_map` over the ancestors, yielding the
first function-like ancestor whose `async_token()` is present. (Note:
a function-like ancestor without an async token yields `None` and the
walk continues outward.) -/
def is_in_async_function (node : JsExpressionStatement) : Bool :=
  (node.ancestors.findSome?
    (fun ancestor =>
      match ancestor with
      | JsAncestor.jsArrowFunctionExpression asyncToken =>
          if asyncToken then some () else none
      | JsAncestor.jsFunctionDeclaration asyncToken =>
          if asyncToken then some () else none
      | JsAncestor.jsMethodClassMember asyncToken =>
          if asyncToken then some () else none
      | JsAncestor.jsMethodObjectMember asyncToken =>
          if asyncToken then some () else none
      | _ => none)).isSome

/-- `NoFloatingPromises::action`: no fix unless `is_in_async_function`;
otherwise rewrite the statement's expression into an await expression
wrapping it. (Trivia manipulation is not modelled; the mutation is the
returned statement.) -/
def action (node : JsExpressionStatement) : Option JsExpressionStatement :=
  if !is_in_async_function node then none
  else
    match node.expression with
    | none => none
    | some expression =>
        some { node with
                expression := some (AnyJsExpression.jsAwaitExpression expression) }

/-! ### Concrete instances used by witnesses -/

/-- A semantic model in which no reference resolves. -/
def emptyModel : SemanticModel := ⟨fun _ => none⟩

/-- A semantic model where `"f"` resolves to `async function f() {}`. -/
def asyncFModel : SemanticModel :=
  ⟨fun r =>
    if r == "f" then
      some ⟨some (AnyJsBindingDeclaration.jsFunctionDeclaration ⟨true, none⟩)⟩
    else none⟩

/-- The call expression `f()`. -/
def fCall : AnyJsExpression :=
  AnyJsExpression.jsCallExpression
    (some (AnyJsExpression.jsIdentifierExpression (some "f"))) (some 0)

/-- A statement `f();` whose nearest function-like ancestor is a
non-async arrow function, itself nested inside an async function
declaration (`async function g() { () => { f(); }; }`). -/
def nestedNonAsyncNode : JsExpressionStatement :=
  { expression := some fCall,
    ancestors := [JsAncestor.jsArrowFunctionExpression false,
                  JsAncestor.jsFunctionDeclaration true] }

/-! ### Claims -/

/-- Claim C2 (code bug evidence): for the statement whose nearest
function-like ancestor is a non-async arrow function nested inside an
async function declaration, `is_in_async_function` returns `true` — the
`find_map` walk skips the non-async arrow (its closure arm yields `None`
because `async_token()` is absent) and keeps searching outward — so
`action` offers an `await` fix even though the statement's nearest
enclosing function is not asynchronous (where `await` is illegal). This
contradicts both the claim and the source function's own doc comment
("find the nearest function and checks if it is an async function"). -/
theorem is_in_async_function_ignores_nearest_function_like :
    nestedNonAsyncNode.ancestors.head?
        = some (JsAncestor.jsArrowFunctionExpression false)
      ∧ is_in_async_function nestedNonAsyncNode = true
      ∧ (action nestedNonAsyncNode).isSome = true :=
  ⟨rfl, rfl, rfl⟩

/-- Claim C10: the handled-chain resolver never inspects the argument
list of a `.finally` call — when the outermost call is `.finally` over a
call-expression object, the verdict equals the verdict on that inner
call, for every outer argument-list length (including a failed or empty
argument list: `argsLen` is free on the left and absent on the right). -/
theorem finally_ignores_arguments :
    ∀ (inner_callee : Option AnyJsExpression) (inner_args argsLen : Option Nat),
      is_handled_promise
          (some (AnyJsExpression.jsStaticMemberExpression
            (some (AnyJsExpression.jsCallExpression inner_callee inner_args))
            (some (AnyJsName.jsName "finally"))))
          argsLen
        = is_handled_promise inner_callee inner_args := by
  intro inner_callee inner_args argsLen
  cases inner_callee <;> rfl

/-- A member-call chain `f(fArgs).m₁(a₁). … .mₖ(aₖ)`, built from the base
callee `f` and the list of member links, outermost link first. -/
def memberCallChain (f : AnyJsExpression) (fArgs : Option Nat) :
    List (String × Option Nat) → AnyJsExpression
  | [] => AnyJsExpression.jsCallExpression (some f) fArgs
  | (m, a) :: rest =>
      AnyJsExpression.jsCallExpression
        (some (AnyJsExpression.jsStaticMemberExpression
          (some (memberCallChain f fArgs rest)) (some (AnyJsName.jsName m))))
        a

/-- Claim C9: promise inference over member-call chains is not limited
to one level — for a chain with k ≥ 1 static-member calls, the inference
on the outer call's callee (a member expression over the chain) reduces,
by repeated recursion through the member expression's call-expression
object, to the inference on the base callee `f`, whatever the member
names and argument counts along the chain. -/
theorem chain_callee_inference_reduces_to_base :
    ∀ (model : SemanticModel) (f : AnyJsExpression) (fArgs : Option Nat)
      (links : List (String × Option Nat)) (member : Option AnyJsName),
      is_callee_a_promise model
          (AnyJsExpression.jsStaticMemberExpression
            (some (memberCallChain f fArgs links)) member)
        = is_callee_a_promise model f := by
  intro model f fArgs links member
  induction links generalizing member with
  | nil => rfl
  | cons head tail ih =>
    obtain ⟨m, a⟩ := head
    calc is_callee_a_promise model
            (AnyJsExpression.jsStaticMemberExpression
              (some (memberCallChain f fArgs ((m, a) :: tail))) member)
        = is_callee_a_promise model
            (AnyJsExpression.jsStaticMemberExpression
              (some (memberCallChain f fArgs tail)) (some (AnyJsName.jsName m))) := rfl
      _ = is_callee_a_promise model f := ih (some (AnyJsName.jsName m))

/-- The call `f(fArgs).then(cb)` with a single argument. -/
def thenCall1 (f : AnyJsExpression) (fArgs : Option Nat) : AnyJsExpression :=
  AnyJsExpression.jsCallExpression
    (some (AnyJsExpression.jsStaticMemberExpression
      (some (AnyJsExpression.jsCallExpression (some f) fArgs))
      (some (AnyJsName.jsName "then"))))
    (some 1)

/-- The call `f(fArgs).then(cb).catch(cb)` with single arguments. -/
def catchCall1 (f : AnyJsExpression) (fArgs : Option Nat) : AnyJsExpression :=
  AnyJsExpression.jsCallExpression
    (some (AnyJsExpression.jsStaticMemberExpression
      (some (thenCall1 f fArgs)) (some (AnyJsName.jsName "catch"))))
    (some 1)

/-- The callee `inner.finally` of a trailing `.finally(...)` call. -/
def finallyCallee (inner : AnyJsExpression) : AnyJsExpression :=
  AnyJsExpression.jsStaticMemberExpression (some inner)
    (some (AnyJsName.jsName "finally"))

/-- Claim C3: the handled-chain resolver. A non-member callee (or a
failed callee lookup) is unhandled; `.catch` is handled iff it has at
least one argument; `.then` is handled iff it has at least two;
`.finally` inherits the verdict of its call-expression object and is
unhandled over any non-call object; any other member name is unhandled.
Consequently, for a callee inferred as a promise, a chain ending
`.then(a).catch(b).finally(c)` is never flagged, while `.finally(c)`
over an unhandled promise call is flagged. -/
theorem is_handled_promise_spec :
    (∀ argsLen, is_handled_promise none argsLen = false)
    ∧ (∀ (expr : AnyJsExpression) (argsLen : Option Nat),
        (∀ object member,
            expr ≠ AnyJsExpression.jsStaticMemberExpression object member) →
          is_handled_promise (some expr) argsLen = false)
    ∧ (∀ (object : Option AnyJsExpression) (n : Nat),
        is_handled_promise
            (some (AnyJsExpression.jsStaticMemberExpression object
              (some (AnyJsName.jsName "catch")))) (some n)
          = decide (0 < n))
    ∧ (∀ (object : Option AnyJsExpression) (n : Nat),
        is_handled_promise
            (some (AnyJsExpression.jsStaticMemberExpression object
              (some (AnyJsName.jsName "then")))) (some n)
          = decide (2 ≤ n))
    ∧ (∀ (inner_callee : Option AnyJsExpression) (inner_args argsLen : Option Nat),
        is_handled_promise
            (some (AnyJsExpression.jsStaticMemberExpression
              (some (AnyJsExpression.jsCallExpression inner_callee inner_args))
              (some (AnyJsName.jsName "finally")))) argsLen
          = is_handled_promise inner_callee inner_args)
    ∧ (∀ (object : Option AnyJsExpression) (argsLen : Option Nat),
        (∀ c a, object ≠ some (AnyJsExpression.jsCallExpression c a)) →
          is_handled_promise
              (some (AnyJsExpression.jsStaticMemberExpression object
                (some (AnyJsName.jsName "finally")))) argsLen
            = false)
    ∧ (∀ (object : Option AnyJsExpression) (name : String) (argsLen : Option Nat),
        name ≠ "catch" → name ≠ "then" → name ≠ "finally" →
          is_handled_promise
              (some (AnyJsExpression.jsStaticMemberExpression object
                (some (AnyJsName.jsName name)))) argsLen
            = false)
    ∧ (∀ (model : SemanticModel) (f : AnyJsExpression) (fArgs : Option Nat)
          (anc : List JsAncestor),
        is_callee_a_promise model f = true →
          run model
              ⟨some (AnyJsExpression.jsCallExpression
                (some (finallyCallee (catchCall1 f fArgs))) (some 1)), anc⟩
            = none)
    ∧ (∀ (model : SemanticModel) (f : AnyJsExpression) (fArgs : Option Nat)
          (anc : List JsAncestor),
        is_callee_a_promise model f = true →
        is_handled_promise (some f) fArgs = false →
          run model
              ⟨some (AnyJsExpression.jsCallExpression
                (some (finallyCallee (AnyJsExpression.jsCallExpression (some f) fArgs)))
                (some 1)), anc⟩
            = some ()) := by
  refine ⟨fun _ => rfl, ?_, ?_, ?_, ?_, ?_, ?_, ?_, ?_⟩
  · intro expr argsLen h
    cases expr with
    | jsStaticMemberExpression object member => exact absurd rfl (h object member)
    | jsIdentifierExpression n => rfl
    | jsCallExpression c a => rfl
    | jsArrowFunctionExpression b r => rfl
    | jsFunctionExpression b r => rfl
    | jsAwaitExpression e => rfl
    | jsUnaryVoidExpression e => rfl
    | jsOtherExpression => rfl
  · intro object n
    show is_handled_promise_callee _ _ = _
    rw [is_handled_promise_callee.eq_def]
    simp
  · intro object n
    show is_handled_promise_callee _ _ = _
    rw [is_handled_promise_callee.eq_def]
    simp
  · intro inner_callee inner_args argsLen
    cases inner_callee <;> rfl
  · intro object argsLen h
    cases object with
    | none => rfl
    | some e =>
      cases e with
      | jsCallExpression c a => exact absurd rfl (h c a)
      | jsIdentifierExpression n => rfl
      | jsStaticMemberExpression o m => rfl
      | jsArrowFunctionExpression b r => rfl
      | jsFunctionExpression b r => rfl
      | jsAwaitExpression e => rfl
      | jsUnaryVoidExpression e => rfl
      | jsOtherExpression => rfl
  · intro object name argsLen h1 h2 h3
    show is_handled_promise_callee _ _ = _
    rw [is_handled_promise_callee.eq_def]
    simp [h1, h2, h3]
  · intro model f fArgs anc hp
    have hcallee :
        is_callee_a_promise model (finallyCallee (catchCall1 f fArgs)) = true := hp
    have hh :
        is_handled_promise (some (finallyCallee (catchCall1 f fArgs))) (some 1)
          = true := rfl
    simp [run, hcallee, hh]
  · intro model f fArgs anc hp hh
    have hcallee :
        is_callee_a_promise model
            (finallyCallee (AnyJsExpression.jsCallExpression (some f) fArgs))
          = true := hp
    have hh2 :
        is_handled_promise
            (some (finallyCallee (AnyJsExpression.jsCallExpression (some f) fArgs)))
            (some 1)
          = false := hh
    simp [run, hcallee, hh2]

/-- Witness for C3: the hypothesis-bearing conjuncts applied at
concrete inputs — a non-member callee, `p.finally(c)` over an identifier
object, an unknown member name, and the flagged `f().finally(c)` where
`f` resolves to `async function f`. -/
theorem is_handled_promise_spec_witness :
    is_handled_promise (some AnyJsExpression.jsOtherExpression) (some 1) = false
    ∧ is_handled_promise
        (some (AnyJsExpression.jsStaticMemberExpression
          (some (AnyJsExpression.jsIdentifierExpression (some "p")))
          (some (AnyJsName.jsName "finally")))) (some 1)
      = false
    ∧ is_handled_promise
        (some (AnyJsExpression.jsStaticMemberExpression (some fCall)
          (some (AnyJsName.jsName "toString")))) (some 1)
      = false
    ∧ run asyncFModel
        ⟨some (AnyJsExpression.jsCallExpression
          (some (finallyCallee (AnyJsExpression.jsCallExpression
            (some (AnyJsExpression.jsIdentifierExpression (some "f"))) (some 0))))
          (some 1)), []⟩
      = some () :=
  ⟨is_handled_promise_spec.2.1 AnyJsExpression.jsOtherExpression (some 1)
      (by intro object member h; simp at h),
    is_handled_promise_spec.2.2.2.2.2.1
      (some (AnyJsExpression.jsIdentifierExpression (some "p"))) (some 1)
      (by intro c a h; simp at h),
    is_handled_promise_spec.2.2.2.2.2.2.1 (some fCall) "toString" (some 1)
      (by decide) (by decide) (by decide),
    is_handled_promise_spec.2.2.2.2.2.2.2.2 asyncFModel
      (AnyJsExpression.jsIdentifierExpression (some "f")) (some 0) [] rfl rfl⟩

/-- Claim C4: promise inference on callees. An identifier reference
whose name lookup, binding resolution, or declaration lookup fails is
never a promise; a `FunctionDeclaration` binding delegates to
`is_function_a_promise`; a `VariableDeclarator` binding is a promise iff
its initializer or its own type annotation qualifies; any other
declaration kind is not a promise. A static member callee delegates to
`is_member_expression_callee_a_promise`, which is `false` unless the
object is a call expression (with a resolvable callee) and otherwise
recurses on that callee; every other callee shape yields `false`. -/
theorem is_callee_a_promise_spec :
    (∀ (model : SemanticModel),
        is_callee_a_promise model (AnyJsExpression.jsIdentifierExpression none) = false)
    ∧ (∀ (model : SemanticModel) (r : String), model.binding r = none →
        is_callee_a_promise model (AnyJsExpression.jsIdentifierExpression (some r)) = false)
    ∧ (∀ (model : SemanticModel) (r : String), model.binding r = some ⟨none⟩ →
        is_callee_a_promise model (AnyJsExpression.jsIdentifierExpression (some r)) = false)
    ∧ (∀ (model : SemanticModel) (r : String) (func_decl : JsFunctionDeclaration),
        model.binding r
            = some ⟨some (AnyJsBindingDeclaration.jsFunctionDeclaration func_decl)⟩ →
          is_callee_a_promise model (AnyJsExpression.jsIdentifierExpression (some r))
            = is_function_a_promise func_decl)
    ∧ (∀ (model : SemanticModel) (r : String) (js_var_decl : JsVariableDeclarator),
        model.binding r
            = some ⟨some (AnyJsBindingDeclaration.jsVariableDeclarator js_var_decl)⟩ →
          is_callee_a_promise model (AnyJsExpression.jsIdentifierExpression (some r))
            = (is_variable_initializer_a_promise js_var_decl
                || is_variable_anno_a_promise js_var_decl))
    ∧ (∀ (model : SemanticModel) (r : String),
        model.binding r = some ⟨some AnyJsBindingDeclaration.otherDeclaration⟩ →
          is_callee_a_promise model (AnyJsExpression.jsIdentifierExpression (some r)) = false)
    ∧ (∀ (model : SemanticModel) (object : Option AnyJsExpression)
          (member : Option AnyJsName),
        is_callee_a_promise model (AnyJsExpression.jsStaticMemberExpression object member)
          = is_member_expression_callee_a_promise model object member)
    ∧ (∀ (model : SemanticModel) (object : Option AnyJsExpression)
          (member : Option AnyJsName),
        (∀ c a, object ≠ some (AnyJsExpression.jsCallExpression c a)) →
          is_member_expression_callee_a_promise model object member = false)
    ∧ (∀ (model : SemanticModel) (a : Option Nat) (member : Option AnyJsName),
        is_member_expression_callee_a_promise model
            (some (AnyJsExpression.jsCallExpression none a)) member
          = false)
    ∧ (∀ (model : SemanticModel) (c : AnyJsExpression) (a : Option Nat)
          (member : Option AnyJsName),
        is_member_expression_callee_a_promise model
            (some (AnyJsExpression.jsCallExpression (some c) a)) member
          = is_callee_a_promise model c)
    ∧ (∀ (model : SemanticModel) (c : Option AnyJsExpression) (a : Option Nat),
        is_callee_a_promise model (AnyJsExpression.jsCallExpression c a) = false)
    ∧ (∀ (model : SemanticModel) (b : Bool) (rta : Option TsReturnTypeAnno),
        is_callee_a_promise model (AnyJsExpression.jsArrowFunctionExpression b rta) = false)
    ∧ (∀ (model : SemanticModel) (b : Bool) (rta : Option TsReturnTypeAnno),
        is_callee_a_promise model (AnyJsExpression.jsFunctionExpression b rta) = false)
    ∧ (∀ (model : SemanticModel) (e : AnyJsExpression),
        is_callee_a_promise model (AnyJsExpression.jsAwaitExpression e) = false)
    ∧ (∀ (model : SemanticModel) (e : AnyJsExpression),
        is_callee_a_promise model (AnyJsExpression.jsUnaryVoidExpression e) = false)
    ∧ (∀ (model : SemanticModel),
        is_callee_a_promise model AnyJsExpression.jsOtherExpression = false) := by
  refine ⟨fun _ => rfl, ?_, ?_, ?_, ?_, ?_, fun _ _ _ => rfl, ?_, fun _ _ _ => rfl,
    fun _ _ _ _ => rfl, fun _ _ _ => rfl, fun _ _ _ => rfl, fun _ _ _ => rfl,
    fun _ _ => rfl, fun _ _ => rfl, fun _ => rfl⟩
  · intro model r h
    simp [is_callee_a_promise, h]
  · intro model r h
    simp [is_callee_a_promise, h]
  · intro model r func_decl h
    simp [is_callee_a_promise, h]
  · intro model r js_var_decl h
    simp [is_callee_a_promise, h]
  · intro model r h
    simp [is_callee_a_promise, h]
  · intro model object member h
    cases object with
    | none => rfl
    | some e =>
      cases e with
      | jsCallExpression c a => exact absurd rfl (h c a)
      | jsIdentifierExpression n => rfl
      | jsStaticMemberExpression o m => rfl
      | jsArrowFunctionExpression b r => rfl
      | jsFunctionExpression b r => rfl
      | jsAwaitExpression e => rfl
      | jsUnaryVoidExpression e => rfl
      | jsOtherExpression => rfl

/-- Witness for C4: the hypothesis-bearing conjuncts applied at concrete
inputs — an unresolvable identifier under `emptyModel`, the resolvable
`f` under `asyncFModel`, and a member expression over a non-call
object. -/
theorem is_callee_a_promise_spec_witness :
    is_callee_a_promise emptyModel
        (AnyJsExpression.jsIdentifierExpression (some "g")) = false
    ∧ is_callee_a_promise asyncFModel
        (AnyJsExpression.jsIdentifierExpression (some "f"))
      = is_function_a_promise ⟨true, none⟩
    ∧ is_member_expression_callee_a_promise emptyModel
        (some (AnyJsExpression.jsIdentifierExpression (some "p")))
        (some (AnyJsName.jsName "then"))
      = false :=
  ⟨is_callee_a_promise_spec.2.1 emptyModel "g" rfl,
    is_callee_a_promise_spec.2.2.2.1 asyncFModel "f" ⟨true, none⟩ rfl,
    is_callee_a_promise_spec.2.2.2.2.2.2.2.1 emptyModel
      (some (AnyJsExpression.jsIdentifierExpression (some "p")))
      (some (AnyJsName.jsName "then"))
      (by intro c a h; simp at h)⟩

/-- Claim C5: the function-level check judges a function declaration
promise-returning iff it has an async token or its return-type
annotation unwraps (annotation → type expression → named type reference
→ plain identifier) to the literal name `"Promise"`; failure at any
unwrap step yields `false`. -/
theorem is_function_a_promise_spec :
    (∀ (func_decl : JsFunctionDeclaration),
        is_function_a_promise func_decl
          = (func_decl.asyncToken
              || is_return_type_a_promise func_decl.returnTypeAnno))
    ∧ (∀ (rt : Option TsReturnTypeAnno),
        is_return_type_a_promise rt = true ↔
          rt = some ⟨some (AnyTsReturnType.anyTsType (AnyTsType.tsReferenceType
                (some (AnyTsName.jsReferenceIdentifier "Promise"))))⟩)
    ∧ is_return_type_a_promise none = false
    ∧ is_return_type_a_promise (some ⟨none⟩) = false
    ∧ is_return_type_a_promise (some ⟨some AnyTsReturnType.tsOtherReturnType⟩) = false
    ∧ (∀ (inner : Option AnyTsReturnType),
        is_return_type_a_promise
          (some ⟨some (AnyTsReturnType.anyTsType (AnyTsType.tsFunctionType inner))⟩)
        = false)
    ∧ is_return_type_a_promise
        (some ⟨some (AnyTsReturnType.anyTsType AnyTsType.tsOtherType)⟩) = false
    ∧ is_return_type_a_promise
        (some ⟨some (AnyTsReturnType.anyTsType (AnyTsType.tsReferenceType none))⟩) = false
    ∧ is_return_type_a_promise
        (some ⟨some (AnyTsReturnType.anyTsType (AnyTsType.tsReferenceType
          (some AnyTsName.tsQualifiedName)))⟩) = false
    ∧ (∀ (name : String), name ≠ "Promise" →
        is_return_type_a_promise
            (some ⟨some (AnyTsReturnType.anyTsType (AnyTsType.tsReferenceType
              (some (AnyTsName.jsReferenceIdentifier name))))⟩)
          = false) := by
  refine ⟨fun _ => rfl, ?_, rfl, rfl, rfl, fun _ => rfl, rfl, rfl, rfl, ?_⟩
  · intro rt
    constructor
    · intro h
      rcases rt with _ | ⟨ty?⟩
      · simp [is_return_type_a_promise] at h
      rcases ty? with _ | t
      · simp [is_return_type_a_promise] at h
      rcases t with t' | _
      case tsOtherReturnType => simp [is_return_type_a_promise] at h
      rcases t' with n? | inner | _
      case tsFunctionType => simp [is_return_type_a_promise] at h
      case tsOtherType => simp [is_return_type_a_promise] at h
      rcases n? with _ | n
      · simp [is_return_type_a_promise] at h
      rcases n with nm | _
      case tsQualifiedName => simp [is_return_type_a_promise] at h
      simp [is_return_type_a_promise] at h
      subst h
      rfl
    · rintro rfl
      rfl
  · intro name h
    simp [is_return_type_a_promise, h]

/-- Witness for C5: the `name ≠ "Promise"` conjunct applied at a
concrete return-type annotation `(): Foo`. -/
theorem is_function_a_promise_spec_witness :
    is_return_type_a_promise
        (some ⟨some (AnyTsReturnType.anyTsType (AnyTsType.tsReferenceType
          (some (AnyTsName.jsReferenceIdentifier "Foo"))))⟩)
      = false :=
  is_function_a_promise_spec.2.2.2.2.2.2.2.2.2 "Foo" (by decide)

/-- Claim C6: for a variable declarator, the initializer-based test
applies only to arrow-function and function-expression initializers (for
which it is the async-or-`Promise`-return test), all other initializer
shapes (or failed lookups) yielding `false`; and the annotation-based
test succeeds exactly when the declarator's own type annotation is a
function-type expression whose return type is a plain named reference to
`Promise`. -/
theorem variable_declarator_promise_spec :
    (∀ (va : Option AnyTsVariableAnno),
        is_variable_initializer_a_promise ⟨none, va⟩ = false)
    ∧ (∀ (va : Option AnyTsVariableAnno),
        is_variable_initializer_a_promise ⟨some ⟨none⟩, va⟩ = false)
    ∧ (∀ (va : Option AnyTsVariableAnno) (b : Bool) (rta : Option TsReturnTypeAnno),
        is_variable_initializer_a_promise
            ⟨some ⟨some (AnyJsExpression.jsArrowFunctionExpression b rta)⟩, va⟩
          = (b || is_return_type_a_promise rta))
    ∧ (∀ (va : Option AnyTsVariableAnno) (b : Bool) (rta : Option TsReturnTypeAnno),
        is_variable_initializer_a_promise
            ⟨some ⟨some (AnyJsExpression.jsFunctionExpression b rta)⟩, va⟩
          = (b || is_return_type_a_promise rta))
    ∧ (∀ (va : Option AnyTsVariableAnno) (e : AnyJsExpression),
        (∀ b rta, e ≠ AnyJsExpression.jsArrowFunctionExpression b rta) →
        (∀ b rta, e ≠ AnyJsExpression.jsFunctionExpression b rta) →
          is_variable_initializer_a_promise ⟨some ⟨some e⟩, va⟩ = false)
    ∧ (∀ (vd : JsVariableDeclarator),
        is_variable_anno_a_promise vd = true ↔
          vd.variableAnno
            = some (AnyTsVariableAnno.tsTypeAnno (some (AnyTsType.tsFunctionType
                (some (AnyTsReturnType.anyTsType (AnyTsType.tsReferenceType
                  (some (AnyTsName.jsReferenceIdentifier "Promise"))))))))) := by
  refine ⟨fun _ => rfl, fun _ => rfl, fun _ _ _ => rfl, fun _ _ _ => rfl, ?_, ?_⟩
  · intro va e h1 h2
    cases e with
    | jsArrowFunctionExpression b rta => exact absurd rfl (h1 b rta)
    | jsFunctionExpression b rta => exact absurd rfl (h2 b rta)
    | jsIdentifierExpression n => rfl
    | jsCallExpression c a => rfl
    | jsStaticMemberExpression o m => rfl
    | jsAwaitExpression e => rfl
    | jsUnaryVoidExpression e => rfl
    | jsOtherExpression => rfl
  · intro vd
    obtain ⟨init, va⟩ := vd
    constructor
    · intro h
      cases va with
      | none => simp [is_variable_anno_a_promise] at h
      | some a =>
        cases a with
        | tsDefiniteVariableAnno => simp [is_variable_anno_a_promise] at h
        | tsTypeAnno ty? =>
          cases ty? with
          | none => simp [is_variable_anno_a_promise] at h
          | some t =>
            cases t with
            | tsReferenceType n? => simp [is_variable_anno_a_promise] at h
            | tsOtherType => simp [is_variable_anno_a_promise] at h
            | tsFunctionType r? =>
              cases r? with
              | none => simp [is_variable_anno_a_promise] at h
              | some r =>
                cases r with
                | tsOtherReturnType => simp [is_variable_anno_a_promise] at h
                | anyTsType t2 =>
                  cases t2 with
                  | tsFunctionType r2 => simp [is_variable_anno_a_promise] at h
                  | tsOtherType => simp [is_variable_anno_a_promise] at h
                  | tsReferenceType n2? =>
                    cases n2? with
                    | none => simp [is_variable_anno_a_promise] at h
                    | some n2 =>
                      cases n2 with
                      | tsQualifiedName => simp [is_variable_anno_a_promise] at h
                      | jsReferenceIdentifier nm =>
                        simp [is_variable_anno_a_promise] at h
                        subst h
                        rfl
    · intro h
      simp only at h
      subst h
      rfl

/-- Witness for C6: the other-initializer-shape conjunct applied at the
identifier initializer `const h = p;`. -/
theorem variable_declarator_promise_spec_witness :
    is_variable_initializer_a_promise
        ⟨some ⟨some (AnyJsExpression.jsIdentifierExpression (some "p"))⟩, none⟩
      = false :=
  variable_declarator_promise_spec.2.2.2.2.1 none
    (AnyJsExpression.jsIdentifierExpression (some "p"))
    (by intro b rta h; simp at h) (by intro b rta h; simp at h)

/-- Claim C1: `run` produces a signal iff the statement's expression is
directly a call expression with a resolvable callee that the inference
classifies as a promise and the handled-chain resolver classifies as
unhandled; and statements whose expression is wrapped in an outer await
or void construct — or `return` statements, which are not expression
statements and never match the query — are never flagged, regardless of
the wrapped expression. -/
theorem run_signals_iff_direct_unhandled_promise_call :
    (∀ (model : SemanticModel) (node : JsExpressionStatement),
        run model node = some () ↔
          ∃ (c : AnyJsExpression) (argsLen : Option Nat),
            node.expression = some (AnyJsExpression.jsCallExpression (some c) argsLen)
              ∧ is_callee_a_promise model c = true
              ∧ is_handled_promise (some c) argsLen = false)
    ∧ (∀ (model : SemanticModel) (e : AnyJsExpression) (anc : List JsAncestor),
        run model ⟨some (AnyJsExpression.jsAwaitExpression e), anc⟩ = none)
    ∧ (∀ (model : SemanticModel) (e : AnyJsExpression) (anc : List JsAncestor),
        run model ⟨some (AnyJsExpression.jsUnaryVoidExpression e), anc⟩ = none)
    ∧ (∀ (model : SemanticModel) (argument : Option AnyJsExpression),
        evaluateStatement model (AnyJsStatement.jsReturnStatement argument) = none) := by
  refine ⟨?_, fun _ _ _ => rfl, fun _ _ _ => rfl, fun _ _ => rfl⟩
  intro model node
  obtain ⟨e?, anc⟩ := node
  cases e? with
  | none => simp [run]
  | some expr =>
    cases expr with
    | jsCallExpression callee? a =>
      cases callee? with
      | none => simp [run]
      | some c =>
        by_cases hp : is_callee_a_promise model c
        · by_cases hh : is_handled_promise (some c) a
          · simp [run, hp, hh]
          · simp [run, hp, hh]
            exact ⟨c, a, ⟨rfl, rfl⟩, hp, by simpa using hh⟩
        · simp [run, hp]
    | jsIdentifierExpression n => simp [run]
    | jsStaticMemberExpression o m => simp [run]
    | jsArrowFunctionExpression b r => simp [run]
    | jsFunctionExpression b r => simp [run]
    | jsAwaitExpression e => simp [run]
    | jsUnaryVoidExpression e => simp [run]
    | jsOtherExpression => simp [run]

/-- Claim C7: applying the offered fix is idempotent — whenever `action`
rewrites a statement (wrapping its expression in an await expression),
re-running the rule's evaluation on the rewritten statement produces no
signal. -/
theorem action_fix_idempotent :
    ∀ (model : SemanticModel) (node rewritten : JsExpressionStatement),
      action node = some rewritten → run model rewritten = none := by
  intro model node rewritten h
  obtain ⟨e?, anc⟩ := node
  cases hb : is_in_async_function ⟨e?, anc⟩ with
  | false => simp [action, hb] at h
  | true =>
    cases e? with
    | none => simp [action, hb] at h
    | some e =>
      simp [action, hb] at h
      subst h
      rfl

/-- Witness for C7: the fix applied to `f();` inside
`async function g()` rewrites it to `await f();`, on which `run`
signals nothing. -/
theorem action_fix_idempotent_witness :
    run emptyModel
        ⟨some (AnyJsExpression.jsAwaitExpression fCall),
          [JsAncestor.jsFunctionDeclaration true]⟩
      = none :=
  action_fix_idempotent emptyModel
    ⟨some fCall, [JsAncestor.jsFunctionDeclaration true]⟩
    ⟨some (AnyJsExpression.jsAwaitExpression fCall),
      [JsAncestor.jsFunctionDeclaration true]⟩ rfl

/-- Claim C8: the core is total and fail-closed. Every operation of the
embedding is a total Lean function (so each evaluation is defined on all
inputs — the Rust code has no `panic!`/`unwrap` paths in this rule), and
each partial or failed lookup (missing tree child, failed binding
resolution, unexpected shape) collapses to `false` / no signal, as
enumerated conjunct by conjunct: failed `expression()`, failed
`callee()`, failed identifier `name()`, failed binding or declaration
lookup, failed member `object()` or `member()`, private member names,
failed `arguments()`, failed annotation unwraps, and failed initializer
lookups. -/
theorem fail_closed_spec :
    (∀ (model : SemanticModel) (anc : List JsAncestor),
        run model ⟨none, anc⟩ = none)
    ∧ (∀ (model : SemanticModel) (a : Option Nat) (anc : List JsAncestor),
        run model ⟨some (AnyJsExpression.jsCallExpression none a), anc⟩ = none)
    ∧ (∀ (model : SemanticModel),
        is_callee_a_promise model (AnyJsExpression.jsIdentifierExpression none) = false)
    ∧ (∀ (model : SemanticModel) (member : Option AnyJsName),
        is_member_expression_callee_a_promise model none member = false)
    ∧ (∀ (model : SemanticModel) (a : Option Nat) (member : Option AnyJsName),
        is_member_expression_callee_a_promise model
          (some (AnyJsExpression.jsCallExpression none a)) member = false)
    ∧ (∀ (argsLen : Option Nat), is_handled_promise none argsLen = false)
    ∧ (∀ (object : Option AnyJsExpression) (argsLen : Option Nat),
        is_handled_promise
          (some (AnyJsExpression.jsStaticMemberExpression object none)) argsLen = false)
    ∧ (∀ (object : Option AnyJsExpression) (t : String) (argsLen : Option Nat),
        is_handled_promise
          (some (AnyJsExpression.jsStaticMemberExpression object
            (some (AnyJsName.jsPrivateName t)))) argsLen = false)
    ∧ (∀ (object : Option AnyJsExpression),
        is_handled_promise
          (some (AnyJsExpression.jsStaticMemberExpression object
            (some (AnyJsName.jsName "catch")))) none = false)
    ∧ (∀ (object : Option AnyJsExpression),
        is_handled_promise
          (some (AnyJsExpression.jsStaticMemberExpression object
            (some (AnyJsName.jsName "then")))) none = false)
    ∧ (∀ (argsLen : Option Nat),
        is_handled_promise
          (some (AnyJsExpression.jsStaticMemberExpression none
            (some (AnyJsName.jsName "finally")))) argsLen = false)
    ∧ is_return_type_a_promise none = false
    ∧ is_return_type_a_promise (some ⟨none⟩) = false
    ∧ (∀ (va : Option AnyTsVariableAnno),
        is_variable_initializer_a_promise ⟨none, va⟩ = false)
    ∧ (∀ (va : Option AnyTsVariableAnno),
        is_variable_initializer_a_promise ⟨some ⟨none⟩, va⟩ = false)
    ∧ (∀ (init : Option JsInitializerClause),
        is_variable_anno_a_promise ⟨init, none⟩ = false)
    ∧ (∀ (init : Option JsInitializerClause),
        is_variable_anno_a_promise
          ⟨init, some (AnyTsVariableAnno.tsTypeAnno none)⟩ = false)
    ∧ (∀ (init : Option JsInitializerClause),
        is_variable_anno_a_promise
          ⟨init, some (AnyTsVariableAnno.tsTypeAnno
            (some (AnyTsType.tsFunctionType none)))⟩ = false)
    ∧ (∀ (anc : List JsAncestor), action ⟨none, anc⟩ = none) := by
  refine ⟨fun _ _ => rfl, fun _ _ _ => rfl, fun _ => rfl, fun _ _ => rfl,
    fun _ _ _ => rfl, fun _ => rfl, fun _ _ => rfl, fun _ _ _ => rfl,
    ?_, ?_, fun _ => rfl, rfl, rfl, fun _ => rfl,
    fun _ => rfl, fun _ => rfl, fun _ => rfl, fun _ => rfl, ?_⟩
  · intro object
    show is_handled_promise_callee _ _ = _
    rw [is_handled_promise_callee.eq_def]
    simp
  · intro object
    show is_handled_promise_callee _ _ = _
    rw [is_handled_promise_callee.eq_def]
    simp
  · intro anc
    cases hb : is_in_async_function ⟨none, anc⟩ <;> simp [action, hb]

end NoFloatingPromises
